import Mathlib

/-!
# Verification of the auralink MCP envelope protocol

Shallow embedding of `src/backend/mcp/protocol.py` and
`src/backend/mcp/vision_server.py`.

Modelling conventions:

* Python JSON values are modelled by the inductive type `Json`.  Python `None`
  and JSON `null` are the same value (`Json.null`).  `json.dumps`/`json.loads`
  form a lossless inverse pair on the dictionary produced by `to_json`, so
  serialization is embedded at the dictionary level: `to_json` produces a
  `RawMessage` (the dictionary as a typed record of its nine fixed keys) and
  `from_json` consumes one.
* `uuid.uuid4()` and `datetime.utcnow().isoformat()` are modelled by explicit
  `String` parameters (`fid`, `ts`): each call site of the Python code draws a
  fresh value, and the theorems quantify over the drawn values.
* The model-inference handler bodies (`_detect_objects`, `_caption_image`, ...)
  are opaque external collaborators; they are modelled by a single parameter
  `invoke : String → Json → Json → Json → Except PyError Json` receiving the
  method name and the three keyword arguments the dispatch site extracts from
  `params` (`image_data`, `image_path`, `frame_number`), and either returning
  a result or raising.  Every theorem quantifies over `invoke`, so nothing is
  assumed about handler outcomes.  `vision_server.py` never imports `uuid` or
  `datetime`, so its reply-envelope constructions raise `NameError` instead
  of completing; this exception flow is embedded with `Except PyError`.
* `asyncio.Queue` is modelled as a `List MCPMessage`: `get` takes the head,
  `put` appends at the end.  Stateful methods become explicit state passing.
-/

namespace Auralink

/-- JSON values (Python's `None`/`dict`/`list`/`str`/`bool`/`int` universe).
Numbers are modelled as integers; no claim involves floating point. -/
inductive Json where
  | null : Json
  | bool : Bool → Json
  | num : Int → Json
  | str : String → Json
  | arr : List Json → Json
  | obj : List (String × Json) → Json

/-- `dict.get(k)` on a params mapping: Python returns `None` when the key is
absent, and returns the stored value (which is `None` for JSON `null`) when
present; since Python `None` and JSON `null` coincide, an absent key and a
`null` value are both `Json.null`. -/
def Json.getKey (l : List (String × Json)) (k : String) : Json :=
  match l.find? (fun p => p.1 == k) with
  | some p => p.2
  | none => Json.null

/-- `class MCPMessageType(Enum)` from `protocol.py` lines 14-19.  Note the
source: `NOTIFICATION = "publish"` — the wire value of the notification kind
is the string `"publish"`, not `"notification"`. -/
inductive MCPMessageType where
  | REQUEST
  | RESPONSE
  | NOTIFICATION
  | ERROR
deriving DecidableEq, Repr

/-- The `.value` of each `MCPMessageType` member. -/
def MCPMessageType.value : MCPMessageType → String
  | .REQUEST => "request"
  | .RESPONSE => "response"
  | .NOTIFICATION => "publish"
  | .ERROR => "error"

/-- The enum constructor `MCPMessageType(s)`: returns the member whose value
is `s`, raising `ValueError` (modelled as `Except.error`) otherwise. -/
def MCPMessageType.ofValue (s : String) : Except String MCPMessageType :=
  if s = "request" then .ok .REQUEST
  else if s = "response" then .ok .RESPONSE
  else if s = "publish" then .ok .NOTIFICATION
  else if s = "error" then .ok .ERROR
  else .error (s ++ " is not a valid MCPMessageType")

/-- `class AgentType(Enum)` from `protocol.py` lines 22-27. -/
inductive AgentType where
  | TRANSCRIPTION
  | VISION
  | GENERATION
  | ORCHESTRATOR
deriving DecidableEq, Repr

/-- The `.value` of each `AgentType` member. -/
def AgentType.value : AgentType → String
  | .TRANSCRIPTION => "transcription"
  | .VISION => "vision"
  | .GENERATION => "generation"
  | .ORCHESTRATOR => "orchestrator"

/-- The enum constructor `AgentType(s)`. -/
def AgentType.ofValue (s : String) : Except String AgentType :=
  if s = "transcription" then .ok .TRANSCRIPTION
  else if s = "vision" then .ok .VISION
  else if s = "generation" then .ok .GENERATION
  else if s = "orchestrator" then .ok .ORCHESTRATOR
  else .error (s ++ " is not a valid AgentType")

/-- `@dataclass class MCPMessage` from `protocol.py` lines 30-41, with the
declared field types (`params: Dict[str, Any]` as an association list of JSON
values, `result`/`error` as optional JSON values). -/
structure MCPMessage where
  message_id : String
  timestamp : String
  source : AgentType
  target : Option AgentType
  message_type : MCPMessageType
  method : String
  params : List (String × Json)
  result : Option Json := none
  error : Option Json := none

/-- The dictionary built by `MCPMessage.to_json` and consumed by
`MCPMessage.from_json`: the nine keys of `asdict(self)`, with the enum-typed
fields holding their serialized string values.  `json.dumps`/`json.loads`
round-trips this record losslessly, so the JSON-text layer is the identity
here. -/
structure RawMessage where
  message_id : String
  timestamp : String
  source : String
  target : Option String
  message_type : String
  method : String
  params : List (String × Json)
  result : Option Json
  error : Option Json

/-- `MCPMessage.to_json` (`protocol.py` lines 47-55): `asdict` copies every
field, then `message_type` and `source` are overwritten with their enum
values, and `target` is overwritten with its value when truthy (enum members
are always truthy; a `None` target stays `None`, serialized as JSON null). -/
def MCPMessage.to_json (m : MCPMessage) : RawMessage :=
  { message_id := m.message_id
    timestamp := m.timestamp
    source := m.source.value
    target := m.target.map AgentType.value
    message_type := m.message_type.value
    method := m.method
    params := m.params
    result := m.result
    error := m.error }

/-- The `if data.get('target'): data['target'] = AgentType(data['target'])`
step of `from_json`: a falsy target (`None`, or the empty string — both
behave identically in every later truthiness test of the source) is left
unconverted, a truthy one goes through the `AgentType` constructor. -/
def decodeTarget : Option String → Except String (Option AgentType)
  | none => .ok none
  | some t =>
      if t = "" then .ok none
      else (AgentType.ofValue t).map some

/-- `MCPMessage.from_json` (`protocol.py` lines 57-65): parse the dictionary,
convert `message_type` then `source` through their enum constructors (each
raising `ValueError` on an unknown value), convert a truthy `target`, and
rebuild the dataclass with `cls(**data)`.  No other validation occurs. -/
def MCPMessage.from_json (raw : RawMessage) : Except String MCPMessage := do
  let mt ← MCPMessageType.ofValue raw.message_type
  let src ← AgentType.ofValue raw.source
  let tgt ← decodeTarget raw.target
  .ok { message_id := raw.message_id
        timestamp := raw.timestamp
        source := src
        target := tgt
        message_type := mt
        method := raw.method
        params := raw.params
        result := raw.result
        error := raw.error }

/-- `MCPEndpoint.send_message` (`protocol.py` lines 76-96).  The endpoint's
`asyncio.Queue` is the list `queue`; `agent` is `self.agent_type`; `fid` and
`ts` model the `uuid.uuid4()` and `datetime.utcnow().isoformat()` draws.  The
source builds a `REQUEST` envelope, `put`s it on `self.message_queue` (the
"TO DO - Route to the target agent" stand-in bus), and returns the envelope
itself; there is no timeout parameter, no target lookup, and no wait for a
response.  The pair is (queue after the put, returned value). -/
def MCPEndpoint.send_message (agent : AgentType) (fid ts : String)
    (queue : List MCPMessage) (target : AgentType) (method : String)
    (params : List (String × Json)) : List MCPMessage × MCPMessage :=
  let message : MCPMessage :=
    { message_id := fid
      timestamp := ts
      source := agent
      target := some target
      message_type := .REQUEST
      method := method
      params := params }
  (queue ++ [message], message)

/-- `MCPEndpoint.publish` (`protocol.py` lines 98-113): builds a
`NOTIFICATION` envelope with `target=None`, `put`s it on the endpoint's own
queue, and returns `None` (modelled as `Unit`) — no subscriber is consulted
and no delivery confirmation is produced. -/
def MCPEndpoint.publish (agent : AgentType) (fid ts : String)
    (queue : List MCPMessage) (method : String)
    (params : List (String × Json)) : List MCPMessage × Unit :=
  let message : MCPMessage :=
    { message_id := fid
      timestamp := ts
      source := agent
      target := none
      message_type := .NOTIFICATION
      method := method
      params := params }
  (queue ++ [message], ())

/-- The keys of the `handlers` dictionary in
`VisionMCPServer._handle_request` (`vision_server.py` lines 99-105). -/
def VisionMCPServer.handlerMethods : List String :=
  ["detect_objects", "extract_text", "caption_image", "identify_graphs",
   "process_frame"]

/-- A Python exception propagating out of the vision server's message
handling: `nameError n` is the `NameError` raised by evaluating the
undefined name `n`; `handlerFailure` covers whatever exception the opaque
inference code behind a handler raises. -/
inductive PyError where
  | nameError : String → PyError
  | handlerFailure : String → PyError

/-- `VisionMCPServer._handle_request` (`vision_server.py` lines 95-137).
`invoke` is the opaque model-inference collaborator standing for the five
handler coroutines; for a known method the dispatch site awaits it with the
method name and the three keyword arguments extracted from `message.params`
by `.get`, and an exception it raises propagates.  Crucially,
`vision_server.py` never imports `uuid` (nor `datetime`), so the
`str(uuid.uuid4())` argument of the envelope construction — line 115 on the
known-method branch, line 128 on the unknown-method branch — raises
`NameError: name 'uuid' is not defined` (modelled as
`PyError.nameError "uuid"`): neither the response envelope of lines 114-124
nor the `-32601` error envelope of lines 127-136 is ever built, and the
function never returns an envelope. -/
def VisionMCPServer.handle_request
    (invoke : String → Json → Json → Json → Except PyError Json)
    (message : MCPMessage) : Except PyError MCPMessage :=
  if message.method ∈ VisionMCPServer.handlerMethods then
    match invoke message.method
        (Json.getKey message.params "image_data")
        (Json.getKey message.params "image_path")
        (Json.getKey message.params "frame_number") with
    | .error e => .error e
    | .ok _result => .error (.nameError "uuid")
  else
    .error (.nameError "uuid")

/-- `VisionMCPServer.handle_message` (`vision_server.py` lines 86-93): first
the lazy `self._load_models()` call runs (an opaque collaborator whose
outcome is the `loadModels` parameter — it may itself raise); then requests
are dispatched to `_handle_request`, whose exception propagates, and every
other kind is returned unchanged. -/
def VisionMCPServer.handle_message (loadModels : Except PyError Unit)
    (invoke : String → Json → Json → Json → Except PyError Json)
    (message : MCPMessage) : Except PyError MCPMessage :=
  match loadModels with
  | .error e => .error e
  | .ok _ =>
    if message.message_type = .REQUEST then
      VisionMCPServer.handle_request invoke message
    else
      .ok message

/-- One iteration of `VisionMCPServer.run` (`vision_server.py` lines
320-334): `get` the head of the queue; if its target is this agent
(`AgentType.VISION`) or `None`, handle it; `put` the outcome back on the
queue only when handling returned normally with a `RESPONSE`.  The
surrounding `except Exception` branch (lines 332-334) catches anything
handling raised, prints it and continues the loop, enqueueing nothing.  An
empty queue suspends, leaving the state unchanged. -/
def VisionMCPServer.runStep (loadModels : Except PyError Unit)
    (invoke : String → Json → Json → Json → Except PyError Json) :
    List MCPMessage → List MCPMessage
  | [] => []
  | message :: rest =>
    if message.target = some .VISION ∨ message.target = none then
      match VisionMCPServer.handle_message loadModels invoke message with
      | .error _ => rest
      | .ok response =>
          if response.message_type = .RESPONSE then rest ++ [response]
          else rest
    else rest

/-- Shared sample: a request whose method is absent from the vision server's
handler table, addressed to the vision agent. -/
def unknownMethodReq : MCPMessage :=
  { message_id := "req-7"
    timestamp := "t0"
    source := .ORCHESTRATOR
    target := some .VISION
    message_type := .REQUEST
    method := "ping"
    params := [] }

/-- Shared sample: an opaque inference collaborator that returns null
without raising. -/
def nullInvoke : String → Json → Json → Json → Except PyError Json :=
  fun _ _ _ _ => .ok Json.null

/-- Both branches of `_handle_request` end in an exception — the opaque
handler's own, or the `NameError` from the unimported `uuid` — so it never
returns an envelope, whatever the method and handler outcome. -/
theorem handle_request_raises
    (invoke : String → Json → Json → Json → Except PyError Json)
    (message : MCPMessage) :
    ∃ e, VisionMCPServer.handle_request invoke message = Except.error e := by
  unfold VisionMCPServer.handle_request
  by_cases hm : message.method ∈ VisionMCPServer.handlerMethods
  · rw [if_pos hm]
    cases hinv : invoke message.method
        (Json.getKey message.params "image_data")
        (Json.getKey message.params "image_path")
        (Json.getKey message.params "frame_number") with
    | error e => exact ⟨e, rfl⟩
    | ok v => exact ⟨.nameError "uuid", rfl⟩
  · rw [if_neg hm]
    exact ⟨.nameError "uuid", rfl⟩

/-- Reduction of the `Except` do-chain on a success. -/
theorem except_bind_ok {ε α β : Type} (a : α) (f : α → Except ε β) :
    (Bind.bind (Except.ok a) f : Except ε β) = f a := rfl

/-- Reduction of the `Except` do-chain on a failure. -/
theorem except_bind_error {ε α β : Type} (e : ε) (f : α → Except ε β) :
    (Bind.bind (Except.error e) f : Except ε β) = Except.error e := rfl

/-- The enum constructor inverts `.value` for agent kinds. -/
theorem AgentType.ofValue_agent_value (a : AgentType) :
    AgentType.ofValue a.value = Except.ok a := by
  cases a <;> rfl

/-- The enum constructor inverts `.value` for message kinds. -/
theorem MCPMessageType.ofValue_kind_value (t : MCPMessageType) :
    MCPMessageType.ofValue t.value = Except.ok t := by
  cases t <;> rfl

/-- Claim C2: decoding the encoding of any envelope — any of the four kinds,
with or without a target, with opaque params/result/error payloads — yields
the envelope back: `from_json (to_json e) = ok e`. -/
theorem from_json_to_json_roundtrip (m : MCPMessage) :
    MCPMessage.from_json (MCPMessage.to_json m) = Except.ok m := by
  obtain ⟨mid, ts, src, tgt, mt, mth, ps, res, err⟩ := m
  cases mt <;> cases src <;> rcases tgt with _ | tgt <;> first
    | rfl
    | (cases tgt <;> rfl)

/-- Claim C1 (code bug): at the failing input, `send_message` returns the
freshly built request envelope itself — kind `REQUEST`, `result` unset —
after enqueueing it on the sender's own queue; it never suspends for, nor
returns, the target handler's result, and it accepts no deadline. -/
theorem sendMessage_returns_request_envelope :
    (MCPEndpoint.send_message .ORCHESTRATOR "id-1" "t1" [] .VISION
        "caption_image" []).2 =
      { message_id := "id-1", timestamp := "t1", source := .ORCHESTRATOR,
        target := some .VISION, message_type := .REQUEST,
        method := "caption_image", params := [], result := none,
        error := none } ∧
    (MCPEndpoint.send_message .ORCHESTRATOR "id-1" "t1" [] .VISION
        "caption_image" []).1 =
      [(MCPEndpoint.send_message .ORCHESTRATOR "id-1" "t1" [] .VISION
        "caption_image" []).2] :=
  ⟨rfl, rfl⟩

/-- Claim C5 (code bug): sending to the generation agent when no endpoint for
it exists anywhere succeeds all the same — the request is appended to the
sender's own queue and returned; no `UnroutableTarget` failure exists in
`send_message`, whose target argument is never consulted for routing. -/
theorem sendMessage_unregistered_target_succeeds :
    MCPEndpoint.send_message .VISION "id-5" "t5" [] .GENERATION "x" [] =
      ([{ message_id := "id-5", timestamp := "t5", source := .VISION,
          target := some .GENERATION, message_type := .REQUEST, method := "x",
          params := [], result := none, error := none }],
       { message_id := "id-5", timestamp := "t5", source := .VISION,
         target := some .GENERATION, message_type := .REQUEST, method := "x",
         params := [], result := none, error := none }) :=
  rfl

/-- Claim C8: for every call, `publish` appends to the endpoint's queue a
notification-kind envelope with no target carrying the given method and
params, and returns unit — no delivery confirmation from any subscriber is
awaited or produced. -/
theorem publish_notification_no_target (agent : AgentType) (fid ts : String)
    (queue : List MCPMessage) (method : String)
    (params : List (String × Json)) :
    MCPEndpoint.publish agent fid ts queue method params =
      (queue ++ [{ message_id := fid, timestamp := ts, source := agent,
                   target := none, message_type := .NOTIFICATION,
                   method := method, params := params, result := none,
                   error := none }], ()) :=
  rfl

/-- Claim C10: regardless of arguments, the envelope built by `send_message`
has the endpoint's own agent type as source, the freshly drawn id, kind
request, and both result and error unset; the envelope `publish` enqueues
likewise, with kind notification. -/
theorem constructed_envelope_invariants (agent : AgentType) (fid ts : String)
    (queue : List MCPMessage) (target : AgentType) (method : String)
    (params : List (String × Json)) :
    ((MCPEndpoint.send_message agent fid ts queue target method
        params).2.source = agent ∧
     (MCPEndpoint.send_message agent fid ts queue target method
        params).2.message_id = fid ∧
     (MCPEndpoint.send_message agent fid ts queue target method
        params).2.message_type = .REQUEST ∧
     (MCPEndpoint.send_message agent fid ts queue target method
        params).2.result = none ∧
     (MCPEndpoint.send_message agent fid ts queue target method
        params).2.error = none) ∧
    (MCPEndpoint.publish agent fid ts queue method params).1 =
      queue ++ [{ message_id := fid, timestamp := ts, source := agent,
                  target := none, message_type := .NOTIFICATION,
                  method := method, params := params, result := none,
                  error := none }] :=
  ⟨⟨rfl, rfl, rfl, rfl, rfl⟩, rfl⟩

/-- Claim C3 (counterexample): the claim's tag set is wrong on both sides —
an otherwise-valid input whose kind tag is the literal string
`"notification"` (a member of the claim's set) is rejected, while the tag
`"publish"` (outside the claim's set) is accepted. -/
theorem decode_kind_tag_counterexample :
    MCPMessage.from_json
      { message_id := "m1", timestamp := "t1", source := "vision",
        target := none, message_type := "notification", method := "ping",
        params := [], result := none, error := none } =
      Except.error "notification is not a valid MCPMessageType" ∧
    MCPMessage.from_json
      { message_id := "m1", timestamp := "t1", source := "vision",
        target := none, message_type := "publish", method := "ping",
        params := [], result := none, error := none } =
      Except.ok
        { message_id := "m1", timestamp := "t1", source := .VISION,
          target := none, message_type := .NOTIFICATION, method := "ping",
          params := [], result := none, error := none } :=
  ⟨rfl, rfl⟩

/-- Claim C3 (amended): decode rejects every kind tag outside
`{request, response, publish, error}` and accepts exactly those tags — the
notification kind is serialized with the wire tag `"publish"`, so the
literal tag `"notification"` is rejected: for any input whose other
enum-valued fields are decodable, decoding succeeds iff the kind tag lies in
that set. -/
theorem decode_kind_tag_iff (raw : RawMessage)
    (hsrc : ∃ a, AgentType.ofValue raw.source = Except.ok a)
    (htgt : ∃ t, decodeTarget raw.target = Except.ok t) :
    (∃ m, MCPMessage.from_json raw = Except.ok m) ↔
      raw.message_type ∈ ["request", "response", "publish", "error"] := by
  obtain ⟨a, ha⟩ := hsrc
  obtain ⟨t, ht⟩ := htgt
  constructor
  · rintro ⟨m, hm⟩
    by_contra hmem
    simp only [List.mem_cons, List.not_mem_nil, or_false, not_or] at hmem
    obtain ⟨h1, h2, h3, h4⟩ := hmem
    simp [MCPMessage.from_json, MCPMessageType.ofValue, h1, h2, h3, h4,
      except_bind_error] at hm
  · intro hmem
    simp only [List.mem_cons, List.not_mem_nil, or_false] at hmem
    have hmt : ∃ mt, MCPMessageType.ofValue raw.message_type = Except.ok mt := by
      rcases hmem with h | h | h | h
      · exact ⟨.REQUEST, by rw [h]; rfl⟩
      · exact ⟨.RESPONSE, by rw [h]; rfl⟩
      · exact ⟨.NOTIFICATION, by rw [h]; rfl⟩
      · exact ⟨.ERROR, by rw [h]; rfl⟩
    obtain ⟨mt, hmt⟩ := hmt
    exact ⟨⟨raw.message_id, raw.timestamp, a, t, mt, raw.method, raw.params,
      raw.result, raw.error⟩, by
      simp [MCPMessage.from_json, hmt, ha, ht, except_bind_ok]⟩

/-- Claim C3 (witness): the amended theorem applied to a concrete decodable
input with kind tag `"request"`. -/
theorem decode_kind_tag_iff_witness :
    (∃ m, MCPMessage.from_json
        { message_id := "m2", timestamp := "t2", source := "vision",
          target := none, message_type := "request", method := "ping",
          params := [], result := none, error := none } = Except.ok m) ↔
      ("request" : String) ∈ ["request", "response", "publish", "error"] :=
  decode_kind_tag_iff
    { message_id := "m2", timestamp := "t2", source := "vision",
      target := none, message_type := "request", method := "ping",
      params := [], result := none, error := none }
    ⟨.VISION, rfl⟩ ⟨none, rfl⟩

/-- Claim C4 (counterexample): an input describing a response envelope that
is missing its required target and has neither result nor error populated is
decoded successfully — no `MalformedEnvelope` failure occurs. -/
theorem decode_missing_target_counterexample :
    MCPMessage.from_json
      { message_id := "m3", timestamp := "t3", source := "vision",
        target := none, message_type := "response", method := "ping",
        params := [], result := none, error := none } =
      Except.ok
        { message_id := "m3", timestamp := "t3", source := .VISION,
          target := none, message_type := .RESPONSE, method := "ping",
          params := [], result := none, error := none } :=
  rfl

/-- Claim C4 (amended): decode validates only the enumerated tags (kind and
agent identities); for either terminal kind tag it accepts an input with a
missing target and any population of result/error — both present, neither
present, or either alone — returning them unchecked. -/
theorem decode_no_structural_validation (mid ts mth : String)
    (src : AgentType) (kindTag : String)
    (hk : kindTag ∈ ["response", "error"]) (ps : List (String × Json))
    (res err : Option Json) :
    ∃ msg, MCPMessage.from_json
        { message_id := mid, timestamp := ts, source := src.value,
          target := none, message_type := kindTag, method := mth,
          params := ps, result := res, error := err } = Except.ok msg ∧
      msg.target = none ∧ msg.result = res ∧ msg.error = err := by
  simp only [List.mem_cons, List.not_mem_nil, or_false] at hk
  rcases hk with h | h <;> subst h <;> cases src <;>
    exact ⟨_, rfl, rfl, rfl, rfl⟩

/-- Claim C4 (witness): the amended theorem applied at a concrete
response-kind input missing its target with neither result nor error. -/
theorem decode_no_structural_validation_witness :
    ∃ msg, MCPMessage.from_json
        { message_id := "m4", timestamp := "t4",
          source := AgentType.VISION.value, target := none,
          message_type := "response", method := "ping", params := [],
          result := none, error := none } = Except.ok msg ∧
      msg.target = none ∧ msg.result = none ∧ msg.error = none :=
  decode_no_structural_validation "m4" "t4" "ping" .VISION "response"
    (by simp) [] none none

/-- Claim C6 (counterexample): handling a concrete request whose method
`"caption_image"` is in the capability table emits no response envelope at
all — the response construction evaluates the unimported name `uuid` and
raises `NameError` — so in particular no emitted response carries the
originating request's id `"req-1"`. -/
theorem caption_request_no_response_counterexample :
    ("caption_image" ∈ VisionMCPServer.handlerMethods) ∧
    VisionMCPServer.handle_request nullInvoke
      { message_id := "req-1", timestamp := "t0", source := .ORCHESTRATOR,
        target := some .VISION, message_type := .REQUEST,
        method := "caption_image", params := [] } =
      Except.error (PyError.nameError "uuid") :=
  ⟨by decide, rfl⟩

/-- Claim C6 (amended): an endpoint never emits a response envelope for a
handled request — even when the opaque handler returns a result, the
response construction of `_handle_request` (vision_server.py lines 114-124)
evaluates the undefined name `uuid` and raises `NameError` — so no envelope
referencing the originating request's id (or any id) is ever created, and
the request envelope itself is never mutated, handling producing only an
exception. -/
theorem handle_request_never_emits_response
    (invoke : String → Json → Json → Json → Except PyError Json)
    (message : MCPMessage) (v : Json)
    (hm : message.method ∈ VisionMCPServer.handlerMethods)
    (hok : invoke message.method
        (Json.getKey message.params "image_data")
        (Json.getKey message.params "image_path")
        (Json.getKey message.params "frame_number") = Except.ok v) :
    VisionMCPServer.handle_request invoke message =
      Except.error (PyError.nameError "uuid") := by
  unfold VisionMCPServer.handle_request
  rw [if_pos hm, hok]

/-- Claim C6 (witness): the amended theorem at a concrete handled request
whose handler succeeds. -/
theorem handle_request_never_emits_response_witness :
    VisionMCPServer.handle_request nullInvoke
      { message_id := "req-2", timestamp := "t0", source := .ORCHESTRATOR,
        target := some .VISION, message_type := .REQUEST,
        method := "caption_image", params := [] } =
      Except.error (PyError.nameError "uuid") :=
  handle_request_never_emits_response nullInvoke
    { message_id := "req-2", timestamp := "t0", source := .ORCHESTRATOR,
      target := some .VISION, message_type := .REQUEST,
      method := "caption_image", params := [] }
    Json.null (by decide) rfl

/-- Claim C7 (code bug): at the failing input — a request whose method
`"ping"` misses the capability table — `_handle_request` raises `NameError`
on the unimported name `uuid` before the `-32601` error envelope of lines
127-136 is ever built, and one iteration of the run loop swallows the
exception and delivers nothing: the queue afterwards is empty, so the miss
is never reported back to the caller. -/
theorem method_not_found_crashes :
    VisionMCPServer.handle_request nullInvoke unknownMethodReq =
      Except.error (PyError.nameError "uuid") ∧
    VisionMCPServer.runStep (Except.ok ()) nullInvoke [unknownMethodReq] =
      [] :=
  ⟨rfl, rfl⟩

/-- Claim C9 (code bug): handling any request raises before an outcome
envelope exists — whatever `_load_models`, the opaque handler, and the
method lookup do — and `run()`'s except branch swallows the exception, so
one loop iteration on a deliverable request enqueues nothing: the
response-only re-enqueue guard of line 327 is unreachable for requests, and
the method-not-found error envelope the claim says is discarded is never
produced. -/
theorem run_request_enqueues_nothing (loadModels : Except PyError Unit)
    (invoke : String → Json → Json → Json → Except PyError Json)
    (msg : MCPMessage) (rest : List MCPMessage)
    (hroute : msg.target = some .VISION ∨ msg.target = none)
    (hreq : msg.message_type = .REQUEST) :
    VisionMCPServer.runStep loadModels invoke (msg :: rest) = rest := by
  have hmsg : ∃ e, VisionMCPServer.handle_message loadModels invoke msg =
      Except.error e := by
    unfold VisionMCPServer.handle_message
    cases loadModels with
    | error e => exact ⟨e, rfl⟩
    | ok u =>
      show ∃ e, (if msg.message_type = .REQUEST then
          VisionMCPServer.handle_request invoke msg else Except.ok msg) =
          Except.error e
      rw [if_pos hreq]
      exact handle_request_raises invoke msg
  obtain ⟨e, he⟩ := hmsg
  simp only [VisionMCPServer.runStep, if_pos hroute, he]

/-- Claim C9 (witness): one loop iteration at the concrete unknown-method
request, with model loading succeeding, leaves the queue empty. -/
theorem run_request_enqueues_nothing_witness :
    VisionMCPServer.runStep (Except.ok ()) nullInvoke [unknownMethodReq] =
      [] :=
  run_request_enqueues_nothing (Except.ok ()) nullInvoke unknownMethodReq []
    (Or.inl rfl) rfl

end Auralink
